import Mathlib

/-!
Shallow embedding of the browser-automation core of `src/playwright_browser.py`
(and the richer snapshot formatter of `src/main.py`).

Modelling conventions:
* Every awaited Playwright operation is an oracle of type `Except String α`:
  `.error e` models the operation raising an exception whose message is `e`,
  `.ok v` models it returning `v`.  The page is assumed quiescent during a
  single call, so an oracle's outcome depends only on its arguments; the
  accessibility-snapshot oracle additionally takes a call counter so the page
  may change between the pre-search and the post-search snapshot.
* A Playwright `Locator` is represented by the selector string that created it.
* Python dictionaries coming from the accessibility APIs are modelled by
  inductive node types; the extra `empty` constructor stands for a falsy
  value (`None` or `{}`), which is what the guards `if not node:` and
  `if snapshot:` test.
* `page.wait_for_timeout` never fails; the waits performed by the orchestrator
  are recorded in an event trace so that the wait behaviour is observable.
-/

/-- A node of the accessibility tree consumed by the simple formatter in
`playwright_browser.py` (`role` / `name` / `children` keys; `empty` models a
falsy node, i.e. Python `None` or `{}`). -/
inductive AXNode where
  | empty : AXNode
  | node (role : Option String) (name : Option String) (children : List AXNode) : AXNode

/-- A node of the richer accessibility tree built by the DOM script in
`main.py` (`role`/`name`/`description` plus optional `value`/`checked`/
`selected`). -/
inductive RichNode where
  | empty : RichNode
  | node (role : Option String) (name : Option String) (description : Option String)
      (value : Option String) (checked : Option Bool) (selected : Option Bool)
      (children : List RichNode) : RichNode

/-- Python `"  " * indent`. -/
def pyRepeat (s : String) : Nat → String
  | 0 => ""
  | n + 1 => s ++ pyRepeat s n

/-- Python `"\n".join(lines)`. -/
def pyJoin (sep : String) : List String → String
  | [] => ""
  | a :: as => as.foldl (fun acc x => acc ++ sep ++ x) a

/-- Python `str(bool)`. -/
def pyBool : Bool → String
  | true => "True"
  | false => "False"

/-- Python `str.upper()` (the tag names compared against are ASCII, so
per-character upcasing is exact); defined by a structural `List.map` so that
it reduces in the kernel. -/
def pyUpper (s : String) : String := ⟨s.data.map Char.toUpper⟩

/-- Python truthiness of a node dictionary (`if not node:`). -/
def AXNode.truthy : AXNode → Bool
  | .empty => false
  | .node _ _ _ => true

mutual

/-- Function `format_node` from `playwright_browser.py` (lines 418-440): renders a node
as `- role` or `- role "name"` at two spaces of indentation per depth level,
followed by its recursively formatted children (empty child renderings are
skipped). -/
def format_node : AXNode → Nat → String
  | .empty, _ => ""
  | .node role name children, indent =>
      let pad := pyRepeat "  " indent
      let roleS := role.getD "unknown"
      let nameS := name.getD ""
      let first :=
        if nameS ≠ "" then pad ++ "- " ++ roleS ++ " \"" ++ nameS ++ "\""
        else pad ++ "- " ++ roleS
      pyJoin "\n" (first :: format_children children (indent + 1))

/-- The `for child in children` loop of `format_node`: formats each child and
keeps only the non-empty renderings (`if child_output:`). -/
def format_children : List AXNode → Nat → List String
  | [], _ => []
  | c :: cs, indent =>
      let out := format_node c indent
      if out = "" then format_children cs indent
      else out :: format_children cs indent

end

mutual

/-- Function `format_node` from `main.py` (lines 642-670): renders `[role]`, then
optional `Name:` / `Description:` lines, then `Value:`/`Checked:`/`Selected:`
lines for the properties present, then the recursively formatted children. -/
def format_rich_node : RichNode → Nat → String
  | .empty, _ => ""
  | .node role name description value checked selected children, indent =>
      let pad := pyRepeat "  " indent
      let roleS := role.getD "unknown"
      let nameS := name.getD ""
      let descS := description.getD ""
      let lines := [pad ++ "[" ++ roleS ++ "]"]
      let lines := if nameS ≠ "" then lines ++ [pad ++ "  Name: " ++ nameS] else lines
      let lines := if descS ≠ "" then lines ++ [pad ++ "  Description: " ++ descS] else lines
      let lines :=
        match value with
        | some v => lines ++ [pad ++ "  Value: " ++ v]
        | none => lines
      let lines :=
        match checked with
        | some b => lines ++ [pad ++ "  Checked: " ++ pyBool b]
        | none => lines
      let lines :=
        match selected with
        | some b => lines ++ [pad ++ "  Selected: " ++ pyBool b]
        | none => lines
      pyJoin "\n" (lines ++ format_rich_children children (indent + 1))

/-- The child loop of the richer `format_node`. -/
def format_rich_children : List RichNode → Nat → List String
  | [], _ => []
  | c :: cs, indent =>
      let out := format_rich_node c indent
      if out = "" then format_rich_children cs indent
      else out :: format_rich_children cs indent

end

/-- Oracle model of a Playwright `Page` (plus the locators derived from it).
Each field models one awaited Playwright operation; `.error e` means the
operation raises an exception with message `e`.  Locators are identified by
the selector string that created them.  `axSnapshot`/`domEval` take the index
of the snapshot-generation call, so the page content may differ between the
pre-search and the post-search snapshot. -/
structure Page where
  /-- Models `page.goto(url, wait_until="load", timeout=30000)` for the url of the call. -/
  gotoResult : Except String Unit
  /-- Models `page.locator(sel).first.is_visible()`. -/
  isVisible : String → Except String Bool
  /-- Models `page.locator(sel).first.evaluate("el => el.tagName")`. -/
  tagName : String → Except String String
  /-- Models `page.locator(sel).first.click()`. -/
  clickResult : String → Except String Unit
  /-- Models `search_box.fill(text)` for the box identified by the selector. -/
  fillResult : String → String → Except String Unit
  /-- Models `search_box.press(key)`. -/
  pressResult : String → String → Except String Unit
  /-- Models `search_box.locator('xpath=ancestor::form').count()`. -/
  formCount : Except String Nat
  /-- Models `form.locator('button[type="submit"], input[type="submit"]').first.is_visible()`. -/
  submitVisible : Except String Bool
  /-- Models the same submit button's `.click()`. -/
  submitClick : Except String Unit
  /-- Models `page.get_by_role("button", name=pattern, exact=False).first.is_visible()`. -/
  roleBtnVisible : String → Except String Bool
  /-- Models the same role-located button's `.click()`. -/
  roleBtnClick : String → Except String Unit
  /-- Models `btn.inner_text()` for the n-th element of `page.locator('button').all()`.
  (Unreachable in the source: see `click_search_button`.) -/
  innerText : Nat → Except String String
  /-- Models `btn.is_visible()` for the n-th button.  (Unreachable, as above.) -/
  btnVisible : Nat → Except String Bool
  /-- Models `btn.click()` for the n-th button.  (Unreachable, as above.) -/
  btnClick : Nat → Except String Unit
  /-- Models `page.wait_for_load_state(state, timeout=t)`. -/
  waitLoadState : String → Nat → Except String Unit
  /-- Models `page.accessibility.snapshot()` at the k-th snapshot-generation call;
  `AXNode.empty` models a falsy result (`None`). -/
  axSnapshot : Nat → Except String AXNode
  /-- Models the DOM-script fallback `page.evaluate(...)` at the k-th call. -/
  domEval : Nat → Except String String

/-- Function `_generate_accessibility_snapshot` (lines 408-470): primary path formats
the native accessibility tree; a falsy tree renders as
"No accessibility tree available"; if the native path raises, the DOM-script
fallback is used (empty text replaced by "Could not generate snapshot"), and
if that raises too the literal "Error generating snapshot" is returned.
Never raises. -/
def generate_accessibility_snapshot (page : Page) (k : Nat) : String :=
  match page.axSnapshot k with
  | .ok n => if n.truthy then format_node n 0 else "No accessibility tree available"
  | .error _ =>
      match page.domEval k with
      | .ok s => if s = "" then "Could not generate snapshot" else s
      | .error _ => "Error generating snapshot"

/-- The selector used by detection stage 2. -/
def roleSearchboxSelector : String := "[role=\"searchbox\"]"

/-- The fixed selector list of detection stage 3 ("common patterns"). -/
def common_selectors : List String :=
  ["input[type=\"search\"]",
   "input[placeholder*=\"search\" i]",
   "input[placeholder*=\"Search\" i]",
   "input[name*=\"search\" i]",
   "input[id*=\"search\" i]",
   "input[aria-label*=\"search\" i]",
   "input[aria-label*=\"Search\" i]"]

/-- The fixed selector list of detection stage 4 ("contextual patterns"). -/
def contextual_selectors : List String :=
  ["input[placeholder*=\"Search events\" i]",
   "input[placeholder*=\"Find tickets\" i]",
   "input[placeholder*=\"Search artists\" i]",
   "input[placeholder*=\"Search for\" i]",
   "input[name*=\"q\" i]",
   "input[id*=\"q\" i]"]

/-- The selector-list loop shared by detection stages 3 and 4
(lines 281-291 and 303-312): for each selector in order, if the first match is
visible and its tag evaluates to INPUT or TEXTAREA (after upcasing) it is
returned; any raising probe, invisible match, or non-input tag skips to the
next selector. -/
def scan_selectors (page : Page) : List String → Option String
  | [] => none
  | sel :: rest =>
      match page.isVisible sel with
      | .ok true =>
          match page.tagName sel with
          | .ok tag =>
              if pyUpper tag = "INPUT" ∨ pyUpper tag = "TEXTAREA" then some sel
              else scan_selectors page rest
          | .error _ => scan_selectors page rest
      | .ok false => scan_selectors page rest
      | .error _ => scan_selectors page rest

/-- Detection stages 2-4 of `_detect_search_box` (lines 261-315): the
`role="searchbox"` probe (raising or invisible probes fall through), then the
common-pattern scan, then the contextual scan.  These stages never touch the
warnings accumulator. -/
def detect_rest (page : Page) : Option String :=
  match page.isVisible roleSearchboxSelector with
  | .ok true => some roleSearchboxSelector
  | _ =>
      match scan_selectors page common_selectors with
      | some s => some s
      | none => scan_selectors page contextual_selectors

/-- Function `_detect_search_box` (lines 236-315).  Returns the selector of the chosen
locator (or `none`) together with the updated warnings list.  Stage 1 tries a
caller-supplied explicit selector: if its visibility probe raises, a warning
is appended and the cascade continues; if it reports invisible, the cascade
continues without a warning.  Never raises. -/
def detect_search_box (page : Page) (explicit_selector : Option String)
    (warnings : List String) : Option String × List String :=
  match explicit_selector with
  | some sel =>
      match page.isVisible sel with
      | .ok true => (some sel, warnings)
      | .ok false => (detect_rest page, warnings)
      | .error e =>
          (detect_rest page,
           warnings ++ ["Explicit selector '" ++ sel ++ "' not found: " ++ e])
  | none => (detect_rest page, warnings)

/-- The combined aria-label selector of trigger stage 3. -/
def ariaButtonSelector : String :=
  "button[aria-label*=\"search\" i], button[aria-label*=\"Search\" i], button[aria-label*=\"submit\" i]"

/-- The fixed keyword list of trigger stage 4. -/
def text_patterns : List String := ["Search", "search", "Go", "Submit", "Find"]

/-- The `get_by_role("button", name=pattern)` loop of trigger stage 4
(lines 374-382): returns `true` at the first pattern whose button is visible
and whose click succeeds; raising probes, invisible buttons and failing
clicks fall through to the next pattern. -/
def role_button_loop (page : Page) : List String → Bool
  | [] => false
  | p :: ps =>
      match page.roleBtnVisible p with
      | .ok true =>
          match page.roleBtnClick p with
          | .ok _ => true
          | .error _ => role_button_loop page ps
      | _ => role_button_loop page ps

/-- Trigger stage 5 (lines 398-405): press Enter inside the search box;
returns the outcome together with the warning delta (one warning when the
press itself raises). -/
def press_fallback (page : Page) (box : String) : Bool × List String :=
  match page.pressResult box "Enter" with
  | .ok _ => (true, [])
  | .error e => (false, ["Failed to press Enter in search box: " ++ e])

/-- Trigger stage 4 (lines 370-396) followed by stage 5: the `get_by_role`
keyword loop, then the Enter-key fallback.  The raw-text scan that follows
the keyword loop in the source is unreachable: at line 384
`buttons = page.locator('button').all()` is missing an `await`, so `buttons`
is a coroutine object and slicing it (`buttons[:10]`) raises a `TypeError`
which the enclosing `except Exception: pass` (line 395) absorbs — control
therefore always falls through to the Enter-key fallback, and the
`innerText`/`btnVisible`/`btnClick` oracles are never consulted. -/
def click_stage4 (page : Page) (box : String) : Bool × List String :=
  if role_button_loop page text_patterns then (true, [])
  else press_fallback page box

/-- Trigger stage 3 (lines 360-368): the aria-label button probe, falling
through to stage 4. -/
def click_stage3 (page : Page) (box : String) : Bool × List String :=
  match page.isVisible ariaButtonSelector with
  | .ok true =>
      match page.clickResult ariaButtonSelector with
      | .ok _ => (true, [])
      | .error _ => click_stage4 page box
  | _ => click_stage4 page box

/-- Trigger stage 2 (lines 345-358): the ancestor-form submit button,
falling through to stage 3. -/
def click_rest (page : Page) (box : String) : Bool × List String :=
  match page.formCount with
  | .ok n =>
      if 0 < n then
        match page.submitVisible with
        | .ok true =>
            match page.submitClick with
            | .ok _ => (true, [])
            | .error _ => click_stage3 page box
        | _ => click_stage3 page box
      else click_stage3 page box
  | .error _ => click_stage3 page box

/-- Function `_click_search_button` (lines 318-405).  Stage 1 tries the caller's
explicit button selector: a raising probe or failing click appends a warning
and the cascade continues; an invisible button falls through silently.
Returns the trigger outcome with the updated warnings; never raises. -/
def click_search_button (page : Page) (explicit_selector : Option String)
    (box : String) (warnings : List String) : Bool × List String :=
  let next := fun (extra : List String) =>
    let r := click_rest page box
    (r.fst, (warnings ++ extra) ++ r.snd)
  match explicit_selector with
  | some sel =>
      match page.isVisible sel with
      | .ok true =>
          match page.clickResult sel with
          | .ok _ => (true, warnings)
          | .error e =>
              next ["Explicit button selector '" ++ sel ++ "' not found: " ++ e]
      | .ok false => next []
      | .error e =>
          next ["Explicit button selector '" ++ sel ++ "' not found: " ++ e]
  | none => next []

/-- Observable wait events emitted by the orchestrator (`page.wait_for_timeout`
and `page.wait_for_load_state` calls), recorded in order. -/
inductive Event where
  | waitTimeout (ms : Nat) : Event
  | waitLoadState (state : String) (timeout : Nat) : Event
deriving DecidableEq

/-- The result dictionary returned by `browser_navigate`/`_execute_navigate`. -/
structure NavigationResult where
  success : Bool
  url : String
  search_performed : Bool
  search_query : Option String
  snapshot : String
  warnings : List String
  errors : List String
deriving DecidableEq

/-- Python truthiness of an optional string (`None` and `""` are falsy). -/
def pyTruthyStr : Option String → Bool
  | none => false
  | some s => !s.isEmpty

/-- Line 63: `should_search = search_query and auto_search`. -/
def shouldSearch (search_query : Option String) (auto_search : Bool) : Bool :=
  pyTruthyStr search_query && auto_search

/-- Function `_execute_navigate` (lines 143-233), returning the result dictionary
together with the trace of wait events.  Step 1 navigates (a raising `goto`
is recorded in `errors` and skipped past, losing its 2000 ms settle wait);
when a search was requested, the pre-search snapshot is taken (call 0), the
detector runs, a found box is filled (a raising fill is absorbed into one
warning), the trigger cascade runs, and when the trigger succeeded or no
explicit button selector was given the result wait runs: network-idle up to
`wait_timeout` when `wait_for_results`, with a raising idle-wait degrading to
a fixed 3000 ms delay, after which the search counts as performed.  Step 6
regenerates the snapshot when none was taken or the search was performed.
Never raises. -/
def execute_navigate (page : Page) (url : String) (should_search : Bool)
    (search_query : Option String) (search_box_selector : Option String)
    (search_button_selector : Option String) (wait_for_results : Bool)
    (wait_timeout : Nat) (warnings : List String) (errors : List String) :
    NavigationResult × List Event :=
  let step1 : List String × List Event :=
    match page.gotoResult with
    | .ok _ => (errors, [Event.waitTimeout 2000])
    | .error e => (errors ++ ["Navigation error: " ++ e], [])
  let errors := step1.fst
  let trace0 := step1.snd
  -- (search_performed, pre-step-6 snapshot, warnings, trace)
  let step : Bool × String × List String × List Event :=
    if should_search then
      let snapshot := generate_accessibility_snapshot page 0
      let det := detect_search_box page search_box_selector warnings
      match det.fst with
      | some box =>
          match page.fillResult box (search_query.getD "") with
          | .ok _ =>
              let trace1 := trace0 ++ [Event.waitTimeout 500]
              let cl := click_search_button page search_button_selector box det.snd
              if cl.fst || search_button_selector.isNone then
                let trace2 :=
                  if wait_for_results then
                    match page.waitLoadState "networkidle" wait_timeout with
                    | .ok _ => trace1 ++ [Event.waitLoadState "networkidle" wait_timeout]
                    | .error _ =>
                        trace1 ++ [Event.waitLoadState "networkidle" wait_timeout,
                                   Event.waitTimeout 3000]
                  else trace1 ++ [Event.waitTimeout 3000]
                (true, snapshot, cl.snd, trace2)
              else
                (false, snapshot,
                 cl.snd ++ ["Search button not found - search may not have been triggered"],
                 trace1)
          | .error e =>
              (false, snapshot, det.snd ++ ["Error performing search: " ++ e], trace0)
      | none =>
          (false, snapshot,
           det.snd ++ ["Search box not found - cannot perform automatic search"],
           trace0)
    else (false, "", warnings, trace0)
  let search_performed := step.fst
  let snapshot0 := step.snd.fst
  let warnings := step.snd.snd.fst
  let trace := step.snd.snd.snd
  -- Step 6: `if not snapshot or search_performed:` take a fresh snapshot; the
  -- call counter is the number of snapshot-generation calls made so far.
  let snapshot :=
    if snapshot0 = "" || search_performed then
      generate_accessibility_snapshot page (if should_search then 1 else 0)
    else snapshot0
  ({ success := true, url := url, search_performed := search_performed,
     search_query := if should_search then search_query else none,
     snapshot := snapshot, warnings := warnings, errors := errors }, trace)

/-- Oracle model of a Playwright `BrowserContext`. -/
structure BrowserCtx where
  /-- Models `context.new_page()`. -/
  newPage : Except String Page
  /-- Models `context.add_init_script(...)`. -/
  addInitScript : Except String Unit

/-- Oracle model of a Playwright `Browser`. -/
structure BrowserInst where
  /-- Models `browser.new_context(viewport=..., user_agent=..., locale=..., timezone_id=...)`. -/
  newContext : Except String BrowserCtx

/-- Oracle model of `async_playwright()` for the create-own-browser path;
failures of the context-manager entry itself are folded into `launch`. -/
structure Env where
  /-- Models `p.chromium.launch(headless=True, args=[...])`. -/
  launch : Except String BrowserInst

/-- The resource-creation chain of the create-own-browser path of
`browser_navigate` (lines 98-121): launch, new context, init script, new
page, in source order. -/
def create_own (env : Env) : Except String Page :=
  match env.launch with
  | .error e => .error e
  | .ok b =>
      match b.newContext with
      | .error e => .error e
      | .ok ctx =>
          match ctx.addInitScript with
          | .error e => .error e
          | .ok _ => ctx.newPage

/-- The `ValueError` message raised at line 71 (page and context both absent). -/
def needContextMsg : String :=
  "If browser is provided, context must also be provided. If context is provided, page must also be provided."

/-- The `ValueError` message raised at line 75 (context absent, browser absent). -/
def needBrowserMsg : String :=
  "If context is provided, browser must also be provided."

/-- Function `browser_navigate` (lines 15-140).  The caller-supplied-resources path
(lines 67-94) sits outside the `try`: its explicit `ValueError`s and any
failure of `context.new_page()` / `browser.new_context()` /
`context.add_init_script()` propagate to the caller (modelled as `.error`).
The create-own path wraps everything in a `try` whose handler returns a
well-formed `success=false` result.  The Python signature defaults are
`auto_search=True`, `wait_for_results=True`, `wait_timeout=10000`, with the
optional arguments absent. -/
def browser_navigate (env : Env) (url : String) (search_query : Option String)
    (auto_search : Bool) (search_box_selector : Option String)
    (search_button_selector : Option String) (wait_for_results : Bool)
    (wait_timeout : Nat) (browser : Option BrowserInst)
    (context : Option BrowserCtx) (page : Option Page) :
    Except String (NavigationResult × List Event) :=
  let should_search := shouldSearch search_query auto_search
  let run := fun (pg : Page) =>
    execute_navigate pg url should_search search_query search_box_selector
      search_button_selector wait_for_results wait_timeout [] []
  if browser.isSome || context.isSome || page.isSome then
    -- `if page is None:` block
    match page with
    | none =>
        match context with
        | none => .error needContextMsg
        | some ctx =>
            match ctx.newPage with
            | .error e => .error e
            -- context was supplied, so the `if context is None:` block is skipped
            | .ok pg => .ok (run pg)
    | some pg =>
        -- `if context is None:` block
        match context with
        | some _ => .ok (run pg)
        | none =>
            match browser with
            | none => .error needBrowserMsg
            | some b =>
                match b.newContext with
                | .error e => .error e
                | .ok ctx =>
                    match ctx.addInitScript with
                    | .error e => .error e
                    | .ok _ => .ok (run pg)
  else
    match create_own env with
    | .ok pg => .ok (run pg)
    | .error e =>
        .ok ({ success := false, url := url, search_performed := false,
               search_query := if should_search then search_query else none,
               snapshot := "", warnings := [],
               errors := ["Error in browser_navigate: " ++ e] }, [])

/-! ### Helper lemmas -/

theorem pyJoin_foldl_le (sep : String) :
    ∀ (as : List String) (acc : String),
      acc.length ≤ (as.foldl (fun acc x => acc ++ sep ++ x) acc).length
  | [], _ => le_refl _
  | x :: xs, acc => by
      have h1 : acc.length ≤ (acc ++ sep ++ x).length := by
        simp only [String.length_append]
        omega
      exact le_trans h1 (pyJoin_foldl_le sep xs (acc ++ sep ++ x))

theorem pyJoin_cons_le (sep a : String) (as : List String) :
    a.length ≤ (pyJoin sep (a :: as)).length :=
  pyJoin_foldl_le sep as a

theorem pyJoin_cons_eq_empty (sep a : String) (as : List String)
    (h : pyJoin sep (a :: as) = "") : a.length = 0 := by
  have hle := pyJoin_cons_le sep a as
  rw [h] at hle
  simpa using hle

/-- A truthy node always renders as at least its own role line. -/
theorem format_node_ne_empty (r n : Option String) (c : List AXNode) (i : Nat) :
    format_node (AXNode.node r n c) i ≠ "" := by
  simp only [format_node]
  intro h
  have hlen := pyJoin_cons_eq_empty _ _ _ h
  have h2 : String.length "- " = 2 := by decide
  revert hlen
  split <;> intro hlen <;> simp only [String.length_append] at hlen <;> omega

/-- Function `_generate_accessibility_snapshot` never returns the empty string: every
branch of the source returns either a formatted truthy tree (at least one
role line) or a non-empty literal. -/
theorem generate_accessibility_snapshot_ne_empty (page : Page) (k : Nat) :
    generate_accessibility_snapshot page k ≠ "" := by
  unfold generate_accessibility_snapshot
  cases hax : page.axSnapshot k with
  | ok node =>
      cases node with
      | empty => simp [AXNode.truthy]
      | node r n c => simpa [AXNode.truthy] using format_node_ne_empty r n c 0
  | error e =>
      cases hdom : page.domEval k with
      | ok s =>
          by_cases hs : s = "" <;> simp [hs]
      | error e' => simp

/-! ### Structural identity of accessibility trees -/

mutual

/-- Decidable structural identity of simple accessibility trees. -/
def AXNode.structEq : AXNode → AXNode → Bool
  | .empty, .empty => true
  | .node r n c, .node r' n' c' => r == r' && n == n' && AXNode.structEqList c c'
  | _, _ => false

/-- Pointwise structural identity of child lists. -/
def AXNode.structEqList : List AXNode → List AXNode → Bool
  | [], [] => true
  | x :: xs, y :: ys => AXNode.structEq x y && AXNode.structEqList xs ys
  | _, _ => false

end

mutual

theorem axStructEq_sound : ∀ a b : AXNode, AXNode.structEq a b = true → a = b
  | .empty, .empty, _ => rfl
  | .empty, .node _ _ _, h => by simp [AXNode.structEq] at h
  | .node _ _ _, .empty, h => by simp [AXNode.structEq] at h
  | .node r n c, .node r' n' c', h => by
      simp only [AXNode.structEq, Bool.and_eq_true, beq_iff_eq] at h
      obtain ⟨⟨h1, h2⟩, h3⟩ := h
      have hc := axStructEqList_sound c c' h3
      rw [h1, h2, hc]

theorem axStructEqList_sound :
    ∀ xs ys : List AXNode, AXNode.structEqList xs ys = true → xs = ys
  | [], [], _ => rfl
  | [], _ :: _, h => by simp [AXNode.structEqList] at h
  | _ :: _, [], h => by simp [AXNode.structEqList] at h
  | x :: xs, y :: ys, h => by
      simp only [AXNode.structEqList, Bool.and_eq_true] at h
      obtain ⟨h1, h2⟩ := h
      rw [axStructEq_sound x y h1, axStructEqList_sound xs ys h2]

end

mutual

/-- Decidable structural identity of rich accessibility trees. -/
def RichNode.structEq : RichNode → RichNode → Bool
  | .empty, .empty => true
  | .node r n d v ch se c, .node r' n' d' v' ch' se' c' =>
      r == r' && n == n' && d == d' && v == v' && ch == ch' && se == se' &&
        RichNode.structEqList c c'
  | _, _ => false

/-- Pointwise structural identity of rich child lists. -/
def RichNode.structEqList : List RichNode → List RichNode → Bool
  | [], [] => true
  | x :: xs, y :: ys => RichNode.structEq x y && RichNode.structEqList xs ys
  | _, _ => false

end

mutual

theorem richStructEq_sound : ∀ a b : RichNode, RichNode.structEq a b = true → a = b
  | .empty, .empty, _ => rfl
  | .empty, .node _ _ _ _ _ _ _, h => by simp [RichNode.structEq] at h
  | .node _ _ _ _ _ _ _, .empty, h => by simp [RichNode.structEq] at h
  | .node r n d v ch se c, .node r' n' d' v' ch' se' c', h => by
      simp only [RichNode.structEq, Bool.and_eq_true, beq_iff_eq] at h
      obtain ⟨⟨⟨⟨⟨⟨h1, h2⟩, h3⟩, h4⟩, h5⟩, h6⟩, h7⟩ := h
      have hc := richStructEqList_sound c c' h7
      rw [h1, h2, h3, h4, h5, h6, hc]

theorem richStructEqList_sound :
    ∀ xs ys : List RichNode, RichNode.structEqList xs ys = true → xs = ys
  | [], [], _ => rfl
  | [], _ :: _, h => by simp [RichNode.structEqList] at h
  | _ :: _, [], h => by simp [RichNode.structEqList] at h
  | x :: xs, y :: ys, h => by
      simp only [RichNode.structEqList, Bool.and_eq_true] at h
      obtain ⟨h1, h2⟩ := h
      rw [richStructEq_sound x y h1, richStructEqList_sound xs ys h2]

end

/-! ### Claim C6: the snapshot formatters are deterministic pure functions -/

/-- C6: the snapshot formatter `format_node` is a deterministic pure function:
on structurally identical accessibility trees it yields byte-identical output
strings, in both the simple role-line variant (`playwright_browser.py`) and
the richer `Name:`/`Description:` variant (`main.py`).  Both formatters are
total Lean functions of the tree alone (no hidden inputs), so structural
identity of the inputs forces equality of the rendered strings at every
indentation level. -/
theorem claim_C6_format_deterministic :
    (∀ (t₁ t₂ : AXNode) (i : Nat), AXNode.structEq t₁ t₂ = true →
        format_node t₁ i = format_node t₂ i) ∧
    (∀ (t₁ t₂ : RichNode) (i : Nat), RichNode.structEq t₁ t₂ = true →
        format_rich_node t₁ i = format_rich_node t₂ i) := by
  constructor
  · intro t₁ t₂ i h
    rw [axStructEq_sound t₁ t₂ h]
  · intro t₁ t₂ i h
    rw [richStructEq_sound t₁ t₂ h]

/-- A sample simple tree (a document with a nested button). -/
def sampleAX : AXNode :=
  AXNode.node (some "document") (some "Home")
    [AXNode.node (some "button") (some "Search") [], AXNode.node none none [], AXNode.empty]

/-- A structurally identical copy of `sampleAX`, built separately. -/
def sampleAX2 : AXNode :=
  AXNode.node (some "document") (some "Home")
    [AXNode.node (some "button") (some "Search") [], AXNode.node none none [], AXNode.empty]

/-- A sample rich tree exercising the optional property lines. -/
def sampleRich : RichNode :=
  RichNode.node (some "body") (some "Events") (some "landing") none (some true) none
    [RichNode.node (some "input") none none (some "q") none (some false) [], RichNode.empty]

/-- A structurally identical copy of `sampleRich`. -/
def sampleRich2 : RichNode :=
  RichNode.node (some "body") (some "Events") (some "landing") none (some true) none
    [RichNode.node (some "input") none none (some "q") none (some false) [], RichNode.empty]

/-- Witness for C6 at concrete structurally identical trees. -/
theorem claim_C6_format_deterministic_witness :
    format_node sampleAX 0 = format_node sampleAX2 0 ∧
    format_rich_node sampleRich 0 = format_rich_node sampleRich2 0 :=
  ⟨claim_C6_format_deterministic.1 sampleAX sampleAX2 0 (by decide),
   claim_C6_format_deterministic.2 sampleRich sampleRich2 0 (by decide)⟩

/-! ### Claim C3: the trigger cascade -/

/-- Stage 1 of `_click_search_button` clicks: an explicit button selector was
supplied, its first match is visible, and the click succeeds. -/
def stage1_clicks (page : Page) (explicit_selector : Option String) : Prop :=
  ∃ sel, explicit_selector = some sel ∧ page.isVisible sel = Except.ok true ∧
    page.clickResult sel = Except.ok ()

/-- Stage 2 clicks: the search box sits inside a form whose submit control is
visible and whose click succeeds. -/
def stage2_clicks (page : Page) : Prop :=
  ∃ n, page.formCount = Except.ok n ∧ 0 < n ∧ page.submitVisible = Except.ok true ∧
    page.submitClick = Except.ok ()

/-- Stage 3 clicks: the aria-label button is visible and its click succeeds. -/
def stage3_clicks (page : Page) : Prop :=
  page.isVisible ariaButtonSelector = Except.ok true ∧
    page.clickResult ariaButtonSelector = Except.ok ()

/-- Stage 4 clicks: some keyword pattern locates (by accessible name) a
visible button whose click succeeds.  (The raw-text half of stage 4 is
unreachable in the source — see `click_stage4`.) -/
def stage4_clicks (page : Page) : Prop :=
  ∃ p ∈ text_patterns, page.roleBtnVisible p = Except.ok true ∧
    page.roleBtnClick p = Except.ok ()

/-- The Enter-key fallback succeeds. -/
def enter_succeeds (page : Page) (box : String) : Prop :=
  page.pressResult box "Enter" = Except.ok ()

theorem role_button_loop_iff (page : Page) :
    ∀ ps : List String, role_button_loop page ps = true ↔
      ∃ p ∈ ps, page.roleBtnVisible p = Except.ok true ∧
        page.roleBtnClick p = Except.ok ()
  | [] => by simp [role_button_loop]
  | p :: ps => by
      rw [role_button_loop]
      cases hv : page.roleBtnVisible p with
      | ok b =>
          cases b with
          | true =>
              cases hc : page.roleBtnClick p with
              | ok u =>
                  cases u
                  simp only [List.mem_cons]
                  constructor
                  · intro _
                    exact ⟨p, Or.inl rfl, hv, hc⟩
                  · intro _
                    trivial
              | error e =>
                  rw [role_button_loop_iff page ps]
                  constructor
                  · rintro ⟨q, hq, h1, h2⟩
                    exact ⟨q, List.mem_cons_of_mem p hq, h1, h2⟩
                  · rintro ⟨q, hq, h1, h2⟩
                    rcases List.mem_cons.mp hq with hqe | hqm
                    · subst hqe
                      rw [hc] at h2
                      exact absurd h2 (by simp)
                    · exact ⟨q, hqm, h1, h2⟩
          | false =>
              rw [role_button_loop_iff page ps]
              constructor
              · rintro ⟨q, hq, h1, h2⟩
                exact ⟨q, List.mem_cons_of_mem p hq, h1, h2⟩
              · rintro ⟨q, hq, h1, h2⟩
                rcases List.mem_cons.mp hq with hqe | hqm
                · subst hqe
                  rw [hv] at h1
                  exact absurd h1 (by simp)
                · exact ⟨q, hqm, h1, h2⟩
      | error e =>
          rw [role_button_loop_iff page ps]
          constructor
          · rintro ⟨q, hq, h1, h2⟩
            exact ⟨q, List.mem_cons_of_mem p hq, h1, h2⟩
          · rintro ⟨q, hq, h1, h2⟩
            rcases List.mem_cons.mp hq with hqe | hqm
            · subst hqe
              rw [hv] at h1
              exact absurd h1 (by simp)
            · exact ⟨q, hqm, h1, h2⟩

theorem press_fallback_fst_iff (page : Page) (box : String) :
    (press_fallback page box).fst = true ↔ enter_succeeds page box := by
  unfold press_fallback enter_succeeds
  cases h : page.pressResult box "Enter" with
  | ok u => cases u; simp
  | error e => simp

theorem click_stage4_fst_iff (page : Page) (box : String) :
    (click_stage4 page box).fst = true ↔
      stage4_clicks page ∨ enter_succeeds page box := by
  unfold click_stage4
  by_cases hloop : role_button_loop page text_patterns = true
  · rw [if_pos hloop]
    have h4 : stage4_clicks page := (role_button_loop_iff page text_patterns).mp hloop
    simp [h4]
  · rw [if_neg hloop]
    rw [press_fallback_fst_iff]
    have h4 : ¬ stage4_clicks page := fun h =>
      hloop ((role_button_loop_iff page text_patterns).mpr h)
    simp [h4]

theorem click_stage3_fst_iff (page : Page) (box : String) :
    (click_stage3 page box).fst = true ↔
      stage3_clicks page ∨ stage4_clicks page ∨ enter_succeeds page box := by
  unfold click_stage3
  cases hv : page.isVisible ariaButtonSelector with
  | ok b =>
      cases b with
      | true =>
          cases hc : page.clickResult ariaButtonSelector with
          | ok u =>
              cases u
              have h3 : stage3_clicks page := ⟨hv, hc⟩
              simp [h3]
          | error e =>
              rw [click_stage4_fst_iff]
              have h3 : ¬ stage3_clicks page := by
                rintro ⟨_, h2⟩
                rw [hc] at h2
                exact absurd h2 (by simp)
              simp [h3]
      | false =>
          rw [click_stage4_fst_iff]
          have h3 : ¬ stage3_clicks page := by
            rintro ⟨h1, _⟩
            rw [hv] at h1
            exact absurd h1 (by simp)
          simp [h3]
  | error e =>
      rw [click_stage4_fst_iff]
      have h3 : ¬ stage3_clicks page := by
        rintro ⟨h1, _⟩
        rw [hv] at h1
        exact absurd h1 (by simp)
      simp [h3]

theorem click_rest_fst_iff (page : Page) (box : String) :
    (click_rest page box).fst = true ↔
      stage2_clicks page ∨ stage3_clicks page ∨ stage4_clicks page ∨
        enter_succeeds page box := by
  unfold click_rest
  cases hf : page.formCount with
  | ok n =>
      by_cases hn : 0 < n
      · simp only [hn, if_true]
        cases hs : page.submitVisible with
        | ok b =>
            cases b with
            | true =>
                cases hc : page.submitClick with
                | ok u =>
                    cases u
                    have h2 : stage2_clicks page := ⟨n, hf, hn, hs, hc⟩
                    simp [h2]
                | error e =>
                    rw [click_stage3_fst_iff]
                    have h2 : ¬ stage2_clicks page := by
                      rintro ⟨m, hm, _, _, hck⟩
                      rw [hc] at hck
                      exact absurd hck (by simp)
                    simp [h2]
            | false =>
                rw [click_stage3_fst_iff]
                have h2 : ¬ stage2_clicks page := by
                  rintro ⟨m, hm, _, hvz, _⟩
                  rw [hs] at hvz
                  exact absurd hvz (by simp)
                simp [h2]
        | error e =>
            rw [click_stage3_fst_iff]
            have h2 : ¬ stage2_clicks page := by
              rintro ⟨m, hm, _, hvz, _⟩
              rw [hs] at hvz
              exact absurd hvz (by simp)
            simp [h2]
      · simp only [hn, if_false]
        rw [click_stage3_fst_iff]
        have h2 : ¬ stage2_clicks page := by
          rintro ⟨m, hm, hmpos, _, _⟩
          rw [hf] at hm
          have : n = m := by
            injection hm
          omega
        simp [h2]
  | error e =>
      rw [click_stage3_fst_iff]
      have h2 : ¬ stage2_clicks page := by
        rintro ⟨m, hm, _, _, _⟩
        rw [hf] at hm
        exact absurd hm (by simp)
      simp [h2]

/-- C3: `_click_search_button` returns `true` exactly when one of the button
stages 1-4 clicks a button or the Enter-key fallback succeeds; equivalently,
when stages 1-4 all fail, the Enter-key press is attempted and its outcome is
the final return value, `false` arising only when the press itself raises.
The function is total (it returns a `Bool`, never an exception): every
internal failure, including the `TypeError` raised by the unawaited
`page.locator('button').all()` in stage 4's raw-text half, is absorbed.  -/
theorem claim_C3_trigger_cascade (page : Page) (explicit_selector : Option String)
    (box : String) (warnings : List String) :
    (click_search_button page explicit_selector box warnings).fst = true ↔
      stage1_clicks page explicit_selector ∨ stage2_clicks page ∨
        stage3_clicks page ∨ stage4_clicks page ∨ enter_succeeds page box := by
  have hr := click_rest_fst_iff page box
  cases explicit_selector with
  | none =>
      have h1 : ¬ stage1_clicks page none := by
        rintro ⟨sel, hsel, _, _⟩
        exact absurd hsel (by simp)
      have hfst : (click_search_button page none box warnings).fst =
          (click_rest page box).fst := rfl
      rw [hfst, hr]
      tauto
  | some sel =>
      cases hv : page.isVisible sel with
      | ok b =>
          cases b with
          | true =>
              cases hc : page.clickResult sel with
              | ok u =>
                  cases u
                  have hfst : (click_search_button page (some sel) box warnings).fst = true := by
                    unfold click_search_button
                    simp [hv, hc]
                  have h1 : stage1_clicks page (some sel) := ⟨sel, rfl, hv, hc⟩
                  rw [hfst]
                  simp [h1]
              | error e =>
                  have hfst : (click_search_button page (some sel) box warnings).fst =
                      (click_rest page box).fst := by
                    unfold click_search_button
                    simp [hv, hc]
                  have h1 : ¬ stage1_clicks page (some sel) := by
                    rintro ⟨sel', hsel, hvz, hck⟩
                    injection hsel with hse
                    subst hse
                    rw [hc] at hck
                    exact absurd hck (by simp)
                  rw [hfst, hr]
                  tauto
          | false =>
              have hfst : (click_search_button page (some sel) box warnings).fst =
                  (click_rest page box).fst := by
                unfold click_search_button
                simp [hv]
              have h1 : ¬ stage1_clicks page (some sel) := by
                rintro ⟨sel', hsel, hvz, _⟩
                injection hsel with hse
                subst hse
                rw [hv] at hvz
                exact absurd hvz (by simp)
              rw [hfst, hr]
              tauto
      | error e =>
          have hfst : (click_search_button page (some sel) box warnings).fst =
              (click_rest page box).fst := by
            unfold click_search_button
            simp [hv]
          have h1 : ¬ stage1_clicks page (some sel) := by
            rintro ⟨sel', hsel, hvz, _⟩
            injection hsel with hse
            subst hse
            rw [hv] at hvz
            exact absurd hvz (by simp)
          rw [hfst, hr]
          tauto

/-! ### Claims C4 and C5: the detection cascade -/

theorem scan_selectors_sound (page : Page) :
    ∀ (sels : List String) (sel : String), scan_selectors page sels = some sel →
      sel ∈ sels ∧ ∃ tag, page.tagName sel = Except.ok tag ∧
        (pyUpper tag = "INPUT" ∨ pyUpper tag = "TEXTAREA")
  | [], _, h => by simp [scan_selectors] at h
  | s :: rest, sel, h => by
      rw [scan_selectors] at h
      cases hv : page.isVisible s with
      | ok b =>
          rw [hv] at h
          cases b with
          | true =>
              cases ht : page.tagName s with
              | ok tag =>
                  rw [ht] at h
                  have h' : (if pyUpper tag = "INPUT" ∨ pyUpper tag = "TEXTAREA"
                      then some s else scan_selectors page rest) = some sel := h
                  by_cases htag : pyUpper tag = "INPUT" ∨ pyUpper tag = "TEXTAREA"
                  · rw [if_pos htag] at h'
                    injection h' with hs
                    subst hs
                    exact ⟨List.mem_cons_self s rest, tag, ht, htag⟩
                  · rw [if_neg htag] at h'
                    have ih := scan_selectors_sound page rest sel h'
                    exact ⟨List.mem_cons_of_mem s ih.1, ih.2⟩
              | error e =>
                  rw [ht] at h
                  have ih := scan_selectors_sound page rest sel h
                  exact ⟨List.mem_cons_of_mem s ih.1, ih.2⟩
          | false =>
              have ih := scan_selectors_sound page rest sel h
              exact ⟨List.mem_cons_of_mem s ih.1, ih.2⟩
      | error e =>
          rw [hv] at h
          have ih := scan_selectors_sound page rest sel h
          exact ⟨List.mem_cons_of_mem s ih.1, ih.2⟩

theorem detect_rest_sound (page : Page) (sel : String)
    (h : detect_rest page = some sel) :
    sel = roleSearchboxSelector ∨
      ((sel ∈ common_selectors ∨ sel ∈ contextual_selectors) ∧
       ∃ tag, page.tagName sel = Except.ok tag ∧
         (pyUpper tag = "INPUT" ∨ pyUpper tag = "TEXTAREA")) := by
  rw [detect_rest] at h
  cases hv : page.isVisible roleSearchboxSelector with
  | ok b =>
      cases b with
      | true =>
          rw [hv] at h
          injection h with hs
          exact Or.inl hs.symm
      | false =>
          rw [hv] at h
          cases hc : scan_selectors page common_selectors with
          | some s =>
              rw [hc] at h
              injection h with hs
              rw [← hs]
              have hsc := scan_selectors_sound page common_selectors s hc
              exact Or.inr ⟨Or.inl hsc.1, hsc.2⟩
          | none =>
              rw [hc] at h
              have hsc := scan_selectors_sound page contextual_selectors sel h
              exact Or.inr ⟨Or.inr hsc.1, hsc.2⟩
  | error e =>
      rw [hv] at h
      cases hc : scan_selectors page common_selectors with
      | some s =>
          rw [hc] at h
          injection h with hs
          rw [← hs]
          have hsc := scan_selectors_sound page common_selectors s hc
          exact Or.inr ⟨Or.inl hsc.1, hsc.2⟩
      | none =>
          rw [hc] at h
          have hsc := scan_selectors_sound page contextual_selectors sel h
          exact Or.inr ⟨Or.inr hsc.1, hsc.2⟩

/-- C5: `_detect_search_box` can only return the caller's explicit selector,
the stage-2 `role="searchbox"` locator, or a stage-3/4 selector whose first
match was verified (by evaluating `el.tagName`) to be an INPUT or TEXTAREA
element: stages 3 and 4 never return an element matching a "search" pattern
whose tag is not input/textarea — such a match is skipped. -/
theorem claim_C5_tag_verified (page : Page) (explicit_selector : Option String)
    (warnings : List String) (sel : String)
    (h : (detect_search_box page explicit_selector warnings).fst = some sel) :
    explicit_selector = some sel ∨ sel = roleSearchboxSelector ∨
      ((sel ∈ common_selectors ∨ sel ∈ contextual_selectors) ∧
       ∃ tag, page.tagName sel = Except.ok tag ∧
         (pyUpper tag = "INPUT" ∨ pyUpper tag = "TEXTAREA")) := by
  cases explicit_selector with
  | none =>
      have h' : detect_rest page = some sel := h
      rcases detect_rest_sound page sel h' with h2 | h2
      · exact Or.inr (Or.inl h2)
      · exact Or.inr (Or.inr h2)
  | some s =>
      rw [detect_search_box] at h
      cases hv : page.isVisible s with
      | ok b =>
          rw [hv] at h
          cases b with
          | true =>
              have h' : (some s : Option String) = some sel := h
              injection h' with hs
              rw [hs]
              exact Or.inl rfl
          | false =>
              have h' : detect_rest page = some sel := h
              rcases detect_rest_sound page sel h' with h2 | h2
              · exact Or.inr (Or.inl h2)
              · exact Or.inr (Or.inr h2)
      | error e =>
          rw [hv] at h
          have h' : detect_rest page = some sel := h
          rcases detect_rest_sound page sel h' with h2 | h2
          · exact Or.inr (Or.inl h2)
          · exact Or.inr (Or.inr h2)

/-- A page whose only visible element is the first common-pattern selector,
with every match reporting tag `input`. -/
def pageStage3 : Page where
  gotoResult := Except.ok ()
  isVisible := fun s => Except.ok (s == "input[type=\"search\"]")
  tagName := fun _ => Except.ok "input"
  clickResult := fun _ => Except.ok ()
  fillResult := fun _ _ => Except.ok ()
  pressResult := fun _ _ => Except.ok ()
  formCount := Except.ok 0
  submitVisible := Except.ok false
  submitClick := Except.ok ()
  roleBtnVisible := fun _ => Except.ok false
  roleBtnClick := fun _ => Except.ok ()
  innerText := fun _ => Except.ok ""
  btnVisible := fun _ => Except.ok false
  btnClick := fun _ => Except.ok ()
  waitLoadState := fun _ _ => Except.ok ()
  axSnapshot := fun _ => Except.ok (AXNode.node (some "document") none [])
  domEval := fun _ => Except.ok "dom"

/-- Witness for C5: on `pageStage3` the detector returns the stage-3 selector
`input[type="search"]`, and the theorem certifies its tag verification. -/
theorem claim_C5_tag_verified_witness :
    (none : Option String) = some "input[type=\"search\"]" ∨
      "input[type=\"search\"]" = roleSearchboxSelector ∨
      (("input[type=\"search\"]" ∈ common_selectors ∨
        "input[type=\"search\"]" ∈ contextual_selectors) ∧
       ∃ tag, pageStage3.tagName "input[type=\"search\"]" = Except.ok tag ∧
         (pyUpper tag = "INPUT" ∨ pyUpper tag = "TEXTAREA")) :=
  claim_C5_tag_verified pageStage3 none [] "input[type=\"search\"]" (by decide)

/-- C4: when the caller supplies an explicit search-box selector whose first
match is visible, and an element with `role="searchbox"` is also visible,
`_detect_search_box` returns the explicit selector (stage 1 wins before
stage 2 is attempted), leaving the warnings untouched. -/
theorem claim_C4_explicit_priority (page : Page) (sel : String)
    (warnings : List String)
    (hvis : page.isVisible sel = Except.ok true)
    (hrole : page.isVisible roleSearchboxSelector = Except.ok true) :
    detect_search_box page (some sel) warnings = (some sel, warnings) := by
  rw [detect_search_box, hvis]

/-- A page on which every visibility probe answers `true`. -/
def pageAllVisible : Page where
  gotoResult := Except.ok ()
  isVisible := fun _ => Except.ok true
  tagName := fun _ => Except.ok "input"
  clickResult := fun _ => Except.ok ()
  fillResult := fun _ _ => Except.ok ()
  pressResult := fun _ _ => Except.ok ()
  formCount := Except.ok 1
  submitVisible := Except.ok true
  submitClick := Except.ok ()
  roleBtnVisible := fun _ => Except.ok true
  roleBtnClick := fun _ => Except.ok ()
  innerText := fun _ => Except.ok "Search"
  btnVisible := fun _ => Except.ok true
  btnClick := fun _ => Except.ok ()
  waitLoadState := fun _ _ => Except.ok ()
  axSnapshot := fun _ => Except.ok (AXNode.node (some "document") none [])
  domEval := fun _ => Except.ok "dom"

/-- Witness for C4 on a page where both the explicit selector `#find` and the
`role="searchbox"` element are visible. -/
theorem claim_C4_explicit_priority_witness :
    detect_search_box pageAllVisible (some "#find") [] = (some "#find", []) :=
  claim_C4_explicit_priority pageAllVisible "#find" [] rfl rfl

/-! ### Claim C2: no search box found -/

/-- C2: on any page where the detection cascade finds no search box (the
detector returns null without raising — it is a total function — and, absent
an explicit selector, adds no warning of its own), a call requesting a search
returns `success=true`, `search_performed=false`, exactly one warning
(containing "Search box not found"), and a snapshot equal to the homepage
extraction (the pre-search snapshot, which is never the empty string and is
therefore not regenerated). -/
theorem claim_C2_no_search_box (page : Page) (url q : String)
    (search_button_selector : Option String) (wait_for_results : Bool)
    (wait_timeout : Nat)
    (hgoto : page.gotoResult = Except.ok ())
    (hdet : detect_search_box page none [] = (none, [])) :
    execute_navigate page url true (some q) none search_button_selector
        wait_for_results wait_timeout [] [] =
      ({ success := true, url := url, search_performed := false,
         search_query := some q,
         snapshot := generate_accessibility_snapshot page 0,
         warnings := ["Search box not found - cannot perform automatic search"],
         errors := [] }, [Event.waitTimeout 2000]) := by
  have hne := generate_accessibility_snapshot_ne_empty page 0
  unfold execute_navigate
  simp only [hgoto, hdet]
  simp [hne]

/-- A page with no input elements: every visibility probe answers `false`. -/
def pageNoInput : Page where
  gotoResult := Except.ok ()
  isVisible := fun _ => Except.ok false
  tagName := fun _ => Except.error "no element"
  clickResult := fun _ => Except.error "no element"
  fillResult := fun _ _ => Except.error "no element"
  pressResult := fun _ _ => Except.error "no element"
  formCount := Except.ok 0
  submitVisible := Except.ok false
  submitClick := Except.error "no element"
  roleBtnVisible := fun _ => Except.ok false
  roleBtnClick := fun _ => Except.error "no element"
  innerText := fun _ => Except.error "no element"
  btnVisible := fun _ => Except.ok false
  btnClick := fun _ => Except.error "no element"
  waitLoadState := fun _ _ => Except.ok ()
  axSnapshot := fun _ => Except.ok (AXNode.node (some "document") (some "Plain page") [])
  domEval := fun _ => Except.ok "dom"

/-- Witness for C2 on a concrete page with no inputs. -/
theorem claim_C2_no_search_box_witness :
    execute_navigate pageNoInput "https://example.org" true (some "shoes") none none
        true 10000 [] [] =
      ({ success := true, url := "https://example.org", search_performed := false,
         search_query := some "shoes",
         snapshot := generate_accessibility_snapshot pageNoInput 0,
         warnings := ["Search box not found - cannot perform automatic search"],
         errors := [] }, [Event.waitTimeout 2000]) :=
  claim_C2_no_search_box pageNoInput "https://example.org" "shoes" none true 10000
    rfl (by decide)

/-! ### Claim C7: the result-wait fallback -/

/-- C7: when a search is triggered (here: box found via the explicit
selector, fill succeeded, and no explicit button selector was given, so the
lenient proceed condition holds) and `wait_for_results` is true, the
orchestrator issues `wait_for_load_state("networkidle")` with the caller's
`wait_timeout` (the Python signature default being 10000 ms); when that wait
raises (e.g. times out), it falls back to a fixed 3000 ms settle delay
instead of aborting, and the search is still marked as performed. -/
theorem claim_C7_wait_fallback (page : Page) (url q sel : String) (wait_timeout : Nat)
    (e : String)
    (hgoto : page.gotoResult = Except.ok ())
    (hvis : page.isVisible sel = Except.ok true)
    (hfill : page.fillResult sel q = Except.ok ())
    (hwait : page.waitLoadState "networkidle" wait_timeout = Except.error e) :
    (execute_navigate page url true (some q) (some sel) none true wait_timeout
        [] []).fst.search_performed = true ∧
    (execute_navigate page url true (some q) (some sel) none true wait_timeout
        [] []).snd =
      [Event.waitTimeout 2000, Event.waitTimeout 500,
       Event.waitLoadState "networkidle" wait_timeout, Event.waitTimeout 3000] := by
  have hdet : detect_search_box page (some sel) [] = (some sel, []) := by
    rw [detect_search_box, hvis]
  constructor <;>
    · unfold execute_navigate
      simp only [hgoto, hdet, Option.getD, hfill, hwait, Option.isNone, Bool.or_true]
      simp [hfill, hwait]

/-- A page where the search succeeds but the network-idle wait times out. -/
def pageIdleTimeout : Page where
  gotoResult := Except.ok ()
  isVisible := fun _ => Except.ok true
  tagName := fun _ => Except.ok "input"
  clickResult := fun _ => Except.ok ()
  fillResult := fun _ _ => Except.ok ()
  pressResult := fun _ _ => Except.ok ()
  formCount := Except.ok 1
  submitVisible := Except.ok true
  submitClick := Except.ok ()
  roleBtnVisible := fun _ => Except.ok true
  roleBtnClick := fun _ => Except.ok ()
  innerText := fun _ => Except.ok "Search"
  btnVisible := fun _ => Except.ok true
  btnClick := fun _ => Except.ok ()
  waitLoadState := fun _ _ => Except.error "Timeout 10000ms exceeded"
  axSnapshot := fun _ => Except.ok (AXNode.node (some "document") none [])
  domEval := fun _ => Except.ok "dom"

/-- Witness for C7 on a concrete page whose idle wait times out. -/
theorem claim_C7_wait_fallback_witness :
    (execute_navigate pageIdleTimeout "https://example.org" true (some "shoes")
        (some "#q") none true 10000 [] []).fst.search_performed = true ∧
    (execute_navigate pageIdleTimeout "https://example.org" true (some "shoes")
        (some "#q") none true 10000 [] []).snd =
      [Event.waitTimeout 2000, Event.waitTimeout 500,
       Event.waitLoadState "networkidle" 10000, Event.waitTimeout 3000] :=
  claim_C7_wait_fallback pageIdleTimeout "https://example.org" "shoes" "#q" 10000
    "Timeout 10000ms exceeded" rfl rfl rfl rfl

/-! ### Claim C8: create-own-browser failure -/

/-- C8: when no browser/context/page is supplied and the orchestrator's own
resource creation (launch, new context, init script, or new page) fails, the
exception is caught and `browser_navigate` returns a well-formed record with
`success=false`, `search_performed=false`, an empty snapshot string, and the
formatted message appended to `errors`, rather than propagating. -/
theorem claim_C8_launch_failure (env : Env) (url : String) (search_query : Option String)
    (auto_search : Bool) (search_box_selector search_button_selector : Option String)
    (wait_for_results : Bool) (wait_timeout : Nat) (e : String)
    (hfail : create_own env = Except.error e) :
    browser_navigate env url search_query auto_search search_box_selector
        search_button_selector wait_for_results wait_timeout none none none =
      Except.ok ({ success := false, url := url, search_performed := false,
                   search_query := if shouldSearch search_query auto_search
                                   then search_query else none,
                   snapshot := "", warnings := [],
                   errors := ["Error in browser_navigate: " ++ e] }, []) := by
  unfold browser_navigate
  simp [hfail]

/-- An environment whose browser launch fails. -/
def envLaunchFail : Env where
  launch := Except.error "chromium executable not found"

/-- Witness for C8: the failing environment yields the `success=false`
record. -/
theorem claim_C8_launch_failure_witness :
    browser_navigate envLaunchFail "https://example.org" (some "shoes") true none none
        true 10000 none none none =
      Except.ok ({ success := false, url := "https://example.org",
                   search_performed := false,
                   search_query := if shouldSearch (some "shoes") true
                                   then some "shoes" else none,
                   snapshot := "", warnings := [],
                   errors := ["Error in browser_navigate: chromium executable not found"] },
                 []) :=
  claim_C8_launch_failure envLaunchFail "https://example.org" (some "shoes") true
    none none true 10000 "chromium executable not found" rfl

/-! ### Claim C10: gating of the reported search query -/

theorem execute_navigate_query (page : Page) (url : String) (should_search : Bool)
    (search_query search_box_selector search_button_selector : Option String)
    (wait_for_results : Bool) (wait_timeout : Nat) (warnings errors : List String) :
    (execute_navigate page url should_search search_query search_box_selector
        search_button_selector wait_for_results wait_timeout warnings
        errors).fst.search_query =
      (if should_search then search_query else none) := rfl

theorem execute_navigate_not_performed (page : Page) (url : String)
    (search_query search_box_selector search_button_selector : Option String)
    (wait_for_results : Bool) (wait_timeout : Nat) (warnings errors : List String) :
    (execute_navigate page url false search_query search_box_selector
        search_button_selector wait_for_results wait_timeout warnings
        errors).fst.search_performed = false := rfl

/-- Branch equation: caller supplied both a context and a page (lines 67-94,
no composition needed). -/
theorem browser_navigate_ctx_page (env : Env) (url : String) (q : Option String)
    (a : Bool) (sbox sbtn : Option String) (wfr : Bool) (wt : Nat)
    (b : Option BrowserInst) (ctx : BrowserCtx) (pg : Page) :
    browser_navigate env url q a sbox sbtn wfr wt b (some ctx) (some pg) =
      Except.ok (execute_navigate pg url (shouldSearch q a) q sbox sbtn wfr wt [] []) := by
  cases b <;> rfl

/-- Branch equation: caller supplied a context only (page composed via
`context.new_page()`, whose failure propagates). -/
theorem browser_navigate_ctx_only (env : Env) (url : String) (q : Option String)
    (a : Bool) (sbox sbtn : Option String) (wfr : Bool) (wt : Nat)
    (b : Option BrowserInst) (ctx : BrowserCtx) :
    browser_navigate env url q a sbox sbtn wfr wt b (some ctx) none =
      (match ctx.newPage with
       | Except.error e => Except.error e
       | Except.ok pg =>
           Except.ok (execute_navigate pg url (shouldSearch q a) q sbox sbtn wfr wt [] [])) := by
  cases b <;> rfl

/-- Branch equation: caller supplied a browser and a page (context composed
via `browser.new_context()` + `add_init_script`, whose failures propagate). -/
theorem browser_navigate_browser_page (env : Env) (url : String) (q : Option String)
    (a : Bool) (sbox sbtn : Option String) (wfr : Bool) (wt : Nat)
    (b : BrowserInst) (pg : Page) :
    browser_navigate env url q a sbox sbtn wfr wt (some b) none (some pg) =
      (match b.newContext with
       | Except.error e => Except.error e
       | Except.ok ctx =>
           match ctx.addInitScript with
           | Except.error e => Except.error e
           | Except.ok _ =>
               Except.ok (execute_navigate pg url (shouldSearch q a) q sbox sbtn wfr wt [] [])) :=
  rfl

/-- Branch equation: caller supplied only a browser — the source raises
`ValueError` at line 71. -/
theorem browser_navigate_browser_only (env : Env) (url : String) (q : Option String)
    (a : Bool) (sbox sbtn : Option String) (wfr : Bool) (wt : Nat) (b : BrowserInst) :
    browser_navigate env url q a sbox sbtn wfr wt (some b) none none =
      Except.error needContextMsg :=
  rfl

/-- Branch equation: caller supplied only a page — the source raises
`ValueError` at line 75. -/
theorem browser_navigate_page_only (env : Env) (url : String) (q : Option String)
    (a : Bool) (sbox sbtn : Option String) (wfr : Bool) (wt : Nat) (pg : Page) :
    browser_navigate env url q a sbox sbtn wfr wt none none (some pg) =
      Except.error needBrowserMsg :=
  rfl

/-- Branch equation: nothing supplied — the create-own path with its
`try`/`except` wrapper. -/
theorem browser_navigate_own (env : Env) (url : String) (q : Option String)
    (a : Bool) (sbox sbtn : Option String) (wfr : Bool) (wt : Nat) :
    browser_navigate env url q a sbox sbtn wfr wt none none none =
      (match create_own env with
       | Except.ok pg =>
           Except.ok (execute_navigate pg url (shouldSearch q a) q sbox sbtn wfr wt [] [])
       | Except.error e =>
           Except.ok ({ success := false, url := url, search_performed := false,
                        search_query := if shouldSearch q a then q else none,
                        snapshot := "", warnings := [],
                        errors := ["Error in browser_navigate: " ++ e] }, [])) :=
  rfl

/-- C10: whenever `browser_navigate` returns a result, the reported
`search_query` equals the caller's query exactly when a search was actually
requested (`should_search`, i.e. a truthy query together with
`auto_search=true`); in particular, for every call with `auto_search=false`
the result's `search_query` is null even though the caller supplied a query,
and no search is attempted (`search_performed=false`). -/
theorem claim_C10_query_gating (env : Env) (url : String) (search_query : Option String)
    (auto_search : Bool) (search_box_selector search_button_selector : Option String)
    (wait_for_results : Bool) (wait_timeout : Nat) (browser : Option BrowserInst)
    (context : Option BrowserCtx) (page : Option Page)
    (res : NavigationResult) (tr : List Event)
    (hok : browser_navigate env url search_query auto_search search_box_selector
        search_button_selector wait_for_results wait_timeout browser context page =
      Except.ok (res, tr)) :
    res.search_query = (if shouldSearch search_query auto_search then search_query
                        else none) ∧
    (auto_search = false → res.search_query = none ∧ res.search_performed = false) := by
  have hauto : auto_search = false → shouldSearch search_query auto_search = false := by
    intro ha
    subst ha
    simp [shouldSearch]
  have hrun : ∀ pg : Page,
      execute_navigate pg url (shouldSearch search_query auto_search) search_query
          search_box_selector search_button_selector wait_for_results wait_timeout [] []
        = (res, tr) →
      res.search_query = (if shouldSearch search_query auto_search then search_query
                          else none) ∧
      (auto_search = false → res.search_query = none ∧ res.search_performed = false) := by
    intro pg hpg
    have hres : res = (execute_navigate pg url (shouldSearch search_query auto_search)
        search_query search_box_selector search_button_selector wait_for_results
        wait_timeout [] []).fst := by
      rw [hpg]
    constructor
    · rw [hres, execute_navigate_query]
    · intro ha
      have h0 := hauto ha
      constructor
      · rw [hres, execute_navigate_query, h0, if_neg]
        simp
      · rw [hres, h0]
        exact execute_navigate_not_performed pg url search_query search_box_selector
          search_button_selector wait_for_results wait_timeout [] []
  cases page with
  | some pg =>
      cases context with
      | some ctx =>
          rw [browser_navigate_ctx_page] at hok
          injection hok with hpair
          exact hrun pg hpair
      | none =>
          cases browser with
          | none =>
              rw [browser_navigate_page_only] at hok
              exact absurd hok (by simp)
          | some b =>
              rw [browser_navigate_browser_page] at hok
              cases hnc : b.newContext with
              | error e =>
                  rw [hnc] at hok
                  exact absurd hok (by simp)
              | ok ctx2 =>
                  rw [hnc] at hok
                  have hok2 : (match ctx2.addInitScript with
                      | Except.error e =>
                          (Except.error e : Except String (NavigationResult × List Event))
                      | Except.ok _ =>
                          Except.ok (execute_navigate pg url
                            (shouldSearch search_query auto_search) search_query
                            search_box_selector search_button_selector wait_for_results
                            wait_timeout [] [])) = Except.ok (res, tr) := hok
                  cases hai : ctx2.addInitScript with
                  | error e2 =>
                      rw [hai] at hok2
                      exact absurd hok2 (by simp)
                  | ok u =>
                      rw [hai] at hok2
                      injection hok2 with hpair
                      exact hrun pg hpair
  | none =>
      cases context with
      | some ctx =>
          rw [browser_navigate_ctx_only] at hok
          cases hnp : ctx.newPage with
          | error e =>
              rw [hnp] at hok
              exact absurd hok (by simp)
          | ok pg =>
              rw [hnp] at hok
              injection hok with hpair
              exact hrun pg hpair
      | none =>
          cases browser with
          | some b =>
              rw [browser_navigate_browser_only] at hok
              exact absurd hok (by simp)
          | none =>
              rw [browser_navigate_own] at hok
              cases hco : create_own env with
              | ok pg =>
                  rw [hco] at hok
                  injection hok with hpair
                  exact hrun pg hpair
              | error e =>
                  rw [hco] at hok
                  injection hok with hpair
                  injection hpair with h1 h2
                  rw [← h1]
                  refine ⟨rfl, ?_⟩
                  intro ha
                  have h0 := hauto ha
                  exact ⟨by simp [h0], rfl⟩

/-- The `success=false` record returned for the failing environment when
`auto_search=false`. -/
def resAutoOff : NavigationResult :=
  { success := false, url := "https://example.org", search_performed := false,
    search_query := if shouldSearch (some "shoes") false then some "shoes" else none,
    snapshot := "", warnings := [],
    errors := ["Error in browser_navigate: chromium executable not found"] }

/-- Witness for C10: a call with a query supplied but `auto_search=false`
reports `search_query=none` and `search_performed=false`. -/
theorem claim_C10_query_gating_witness :
    resAutoOff.search_query = (if shouldSearch (some "shoes") false then some "shoes"
                               else none) ∧
    (false = false → resAutoOff.search_query = none ∧ resAutoOff.search_performed = false) :=
  claim_C10_query_gating envLaunchFail "https://example.org" (some "shoes") false
    none none true 10000 none none none resAutoOff [] rfl

/-! ### Claim C1: the caller-supplied-resources path -/

/-- A browser handle whose operations are never reached. -/
def browserStub : BrowserInst where
  newContext := Except.error "unused"

/-- Counterexample to C1 as stated: supplying only a browser (no context, no
page) does not return a `NavigationResult` — the source raises `ValueError`
at line 71 (the provided-resources path at lines 67-94 sits outside the
`try`), so the exception propagates to the caller. -/
theorem claim_C1_counterexample :
    browser_navigate envLaunchFail "https://example.org" (some "tickets") true none
        none true 10000 (some browserStub) none none =
      Except.error needContextMsg :=
  rfl

/-- C1 (amended): when the caller supplies resources, `browser_navigate`
composes the missing pieces and returns a `NavigationResult` for every
subset except {browser} alone and {page} alone — i.e. whenever a context is
supplied, or a browser and a page are both supplied — provided the
composition calls themselves (`context.new_page()`, `browser.new_context()`,
`context.add_init_script()`) succeed; supplying only a browser or only a
page raises `ValueError` (and a failing composition call also propagates,
this path being outside the `try`). -/
theorem claim_C1_amended_resource_composition :
    (∀ (env : Env) (url : String) (q : Option String) (a : Bool)
        (sbox sbtn : Option String) (wfr : Bool) (wt : Nat)
        (b : Option BrowserInst) (ctx : BrowserCtx) (pg : Page),
        ∃ r, browser_navigate env url q a sbox sbtn wfr wt b (some ctx) (some pg) =
          Except.ok r) ∧
    (∀ (env : Env) (url : String) (q : Option String) (a : Bool)
        (sbox sbtn : Option String) (wfr : Bool) (wt : Nat)
        (ctx : BrowserCtx) (pg : Page) (b : Option BrowserInst),
        ctx.newPage = Except.ok pg →
        ∃ r, browser_navigate env url q a sbox sbtn wfr wt b (some ctx) none =
          Except.ok r) ∧
    (∀ (env : Env) (url : String) (q : Option String) (a : Bool)
        (sbox sbtn : Option String) (wfr : Bool) (wt : Nat)
        (b : BrowserInst) (ctx : BrowserCtx),
        b.newContext = Except.ok ctx → ctx.addInitScript = Except.ok () →
        ∀ pg : Page,
        ∃ r, browser_navigate env url q a sbox sbtn wfr wt (some b) none (some pg) =
          Except.ok r) ∧
    (∀ (env : Env) (url : String) (q : Option String) (a : Bool)
        (sbox sbtn : Option String) (wfr : Bool) (wt : Nat) (b : BrowserInst),
        browser_navigate env url q a sbox sbtn wfr wt (some b) none none =
          Except.error needContextMsg) ∧
    (∀ (env : Env) (url : String) (q : Option String) (a : Bool)
        (sbox sbtn : Option String) (wfr : Bool) (wt : Nat) (pg : Page),
        browser_navigate env url q a sbox sbtn wfr wt none none (some pg) =
          Except.error needBrowserMsg) := by
  refine ⟨?_, ?_, ?_, ?_, ?_⟩
  · intro env url q a sbox sbtn wfr wt b ctx pg
    exact ⟨_, browser_navigate_ctx_page env url q a sbox sbtn wfr wt b ctx pg⟩
  · intro env url q a sbox sbtn wfr wt ctx pg b hnp
    refine ⟨execute_navigate pg url (shouldSearch q a) q sbox sbtn wfr wt [] [], ?_⟩
    rw [browser_navigate_ctx_only, hnp]
  · intro env url q a sbox sbtn wfr wt b ctx hnc hai pg
    refine ⟨execute_navigate pg url (shouldSearch q a) q sbox sbtn wfr wt [] [], ?_⟩
    rw [browser_navigate_browser_page, hnc]
    show (match ctx.addInitScript with
          | Except.error e =>
              (Except.error e : Except String (NavigationResult × List Event))
          | Except.ok _ =>
              Except.ok (execute_navigate pg url (shouldSearch q a) q sbox sbtn wfr wt
                [] [])) = _
    rw [hai]
  · intro env url q a sbox sbtn wfr wt b
    exact browser_navigate_browser_only env url q a sbox sbtn wfr wt b
  · intro env url q a sbox sbtn wfr wt pg
    exact browser_navigate_page_only env url q a sbox sbtn wfr wt pg

/-- A context whose composition calls succeed. -/
def ctxTriv : BrowserCtx where
  newPage := Except.ok pageNoInput
  addInitScript := Except.ok ()

/-- Witness for the amended C1: supplying a context alone succeeds (page
composed via `new_page`), while supplying a browser alone raises. -/
theorem claim_C1_amended_resource_composition_witness :
    (∃ r, browser_navigate envLaunchFail "https://example.org" (some "shoes") true
        none none true 10000 none (some ctxTriv) none = Except.ok r) ∧
    browser_navigate envLaunchFail "https://example.org" (some "shoes") true none
        none true 10000 (some browserStub) none none = Except.error needContextMsg :=
  ⟨claim_C1_amended_resource_composition.2.1 envLaunchFail "https://example.org"
      (some "shoes") true none none true 10000 ctxTriv pageNoInput none rfl,
   claim_C1_amended_resource_composition.2.2.2.1 envLaunchFail "https://example.org"
      (some "shoes") true none none true 10000 browserStub⟩

/-! ### Claim C9: the stage-4 raw-text button scan is dead code -/

/-- A page on which trigger stages 1-3 and the accessible-name keyword
lookup all fail, while a visible button (index 0) with inner text "Search"
and a working click does exist, and the Enter press raises. -/
def pageDeadScan : Page where
  gotoResult := Except.ok ()
  isVisible := fun _ => Except.ok false
  tagName := fun _ => Except.error "no element"
  clickResult := fun _ => Except.error "no element"
  fillResult := fun _ _ => Except.ok ()
  pressResult := fun _ _ => Except.error "page closed"
  formCount := Except.error "no ancestor form"
  submitVisible := Except.ok false
  submitClick := Except.ok ()
  roleBtnVisible := fun _ => Except.ok false
  roleBtnClick := fun _ => Except.ok ()
  innerText := fun n => Except.ok (if n = 0 then "Search" else "")
  btnVisible := fun _ => Except.ok true
  btnClick := fun _ => Except.ok ()
  waitLoadState := fun _ _ => Except.ok ()
  axSnapshot := fun _ => Except.ok (AXNode.node (some "document") none [])
  domEval := fun _ => Except.ok "dom"

/-- C9 evidence (code bug): the raw-text half of stage 4 never examines any
button.  On `pageDeadScan` the first button is visible, its inner text
matches the keyword "Search", and its click would succeed — yet
`_click_search_button` falls through to the Enter fallback (which here
raises) and returns `false`: at line 384 `page.locator('button').all()` is
not awaited, so `buttons[:10]` raises `TypeError` inside the stage-4 `try`
and the scan claimed to examine up to 10 buttons is unreachable.  The
keyword-role lookup is indeed tried first, as the claim says. -/
theorem claim_C9_raw_scan_dead :
    pageDeadScan.btnVisible 0 = Except.ok true ∧
    pageDeadScan.innerText 0 = Except.ok "Search" ∧
    pageDeadScan.btnClick 0 = Except.ok () ∧
    click_search_button pageDeadScan none "#box" [] =
      (false, ["Failed to press Enter in search box: page closed"]) :=
  ⟨rfl, rfl, rfl, rfl⟩
